import Mathlib

/-!
Verification of the billing/subscription state machine of the
`FastApi_Book_storage_App` repository (file `src/TodoApp/routers/reference.py`).

The repository file is an iterative development dump containing two successive
versions of every billing handler.  The module-level `router` object is rebound
at line 8123, so the routes registered after that point (the second
`paystack_billing_webhook` at lines 8131-8571, `cancel_subscription` at
8581-8639, `subscription_checkout` at 8641-8740, and the second
`PlanIntentService` at 8941-9329) are the ones a `main.py` importing the module
would serve; the earlier copies (lines 3089-3500) are superseded drafts.  The
definitions below embed the effective (second) versions.

Conventions of the shallow embedding:
* SQLAlchemy rows become Lean structures; the database session becomes an
  explicit `DB` value threaded through the handlers; `db.execute(update ...)`
  becomes a `List.map` over the affected table and `db.commit()` is the
  identity (no claim distinguishes flushed from committed writes).
* Python `Decimal` amounts become `ℚ` (exact decimal arithmetic embeds exactly
  into the rationals); the webhook's integer kobo amount becomes `Int`.
* `datetime` instants become `Nat` (seconds); `timedelta(days=30)` becomes the
  constant `thirtyDays`.
* `None`-able Python values become `Option`; Python string truthiness
  (`if s:`) becomes `pyTruthy`, and `a or b` on strings becomes `pyOr`.
* Raising `HTTPException(status_code, detail)` becomes returning an
  `HttpResponse` with that status; the route decorator `status_code=200` makes
  every plain `return {...}` an HTTP 200 whose `"status"`/`detail` field we
  record as `body`.
* `logger.error(...)` calls become `LogEntry` values with severity `"error"`
  collected in the result (info-level logs are not modelled).
-/

/-- Row of the `merchant_plans` table (`class MerchantPlan`, reference.py
lines 7875-7940). -/
structure MerchantPlan where
  tenant_id : Nat
  plan_code : String
  status : String
  is_active : Bool
  currency_lock : Option String := none
  billing_interval : Option String := none
  billing_cycle_start : Option Nat := none
  quota_messages : Option Nat := none
  price : Option Nat := none
  cycle_reset_at : Option Nat := none
  overage_count : Nat := 0
  paystack_plan_id : Option String := none
  paystack_subscription_code : Option String := none
  paystack_email_token : Option String := none
deriving Repr, DecidableEq

/-- Row of the `merchant_invoices` table (`class MerchantInvoice`,
reference.py lines 9359-9430); `amount` is a `Decimal` column, embedded as
`ℚ`. -/
structure MerchantInvoice where
  id : String
  tenant_id : Nat
  amount : ℚ
  currency : String := "NGN"
  status : String
  category : String := "SUBSCRIPTION"
  external_reference : Option String := none
deriving Repr, DecidableEq

/-- Row of the `merchant_profiles` table (`class MerchantProfile`,
reference.py lines 7761-7800).  The checkout handler (line 8667) reads
`profile.currency_lock`; the field is the tenant's fixed settlement currency
described in the data model. -/
structure MerchantProfile where
  tenant_id : Nat
  email : String := ""
  currency_lock : Option String := none
deriving Repr, DecidableEq

/-- The relational store as the handlers see it. -/
structure DB where
  plans : List MerchantPlan
  invoices : List MerchantInvoice
  profiles : List MerchantProfile := []
deriving Repr, DecidableEq

/-- One `logger.error` emission, with the `extra` context of
`paystack_webhook_amount_mismatch` (reference.py lines 8303-8319). -/
structure LogEntry where
  severity : String
  message : String
  invoice_id : Option String := none
  tenant_id : Option Nat := none
  expected : Option ℚ := none
  received : Option ℚ := none
deriving Repr, DecidableEq

/-- HTTP outcome of a handler: the status code and the `"status"` field of the
returned JSON body (or the `detail` of a raised `HTTPException`). -/
structure HttpResponse where
  status_code : Nat
  body : String
deriving Repr, DecidableEq

/-- Result of one webhook invocation: the database after the handler ran, the
HTTP response, and the error-severity log entries emitted. -/
structure WebhookResult where
  db : DB
  response : HttpResponse
  logs : List LogEntry
deriving Repr, DecidableEq

/-- `data["subscription"]` sub-object of the event payload;
`next_payment_date` arrives as an ISO timestamp and is embedded already
parsed. -/
structure SubscriptionData where
  subscription_code : Option String := none
  email_token : Option String := none
  next_payment_date : Option Nat := none
deriving Repr, DecidableEq

/-- `data["metadata"]` sub-object of the event payload. -/
structure EventMetadata where
  plan_id : Option String := none
  unpaid_invoice_ids : List String := []
  tenant_id : Option Nat := none
deriving Repr, DecidableEq

/-- The `data` object of the webhook envelope. -/
structure EventData where
  reference : Option String := none
  amount : Option Int := none
  currency : Option String := none
  subscription_code : Option String := none
  subscription : SubscriptionData := {}
  metadata : EventMetadata := {}
deriving Repr, DecidableEq

/-- The parsed webhook envelope `{event: string, data: {...}}`. -/
structure WebhookPayload where
  event : Option String := none
  data : EventData := {}
deriving Repr, DecidableEq

/-- Python truthiness of an optional string: `None` and `""` are falsy. -/
def pyTruthy : Option String → Bool
  | none => false
  | some s => !(s = "")

/-- Python `a or b` on optional strings: `a` when truthy, else `b`. -/
def pyOr (a b : Option String) : Option String :=
  if pyTruthy a then a else b

/-- SQLAlchemy `MerchantPlan.paystack_subscription_code == sub_code`: for a
string value this is SQL equality, where a `NULL` column never matches; for
a Python `None` value SQLAlchemy renders the comparison as
`paystack_subscription_code IS NULL`, which matches exactly the rows whose
code is `NULL`. -/
def matchesSubCode (subCode : Option String) (p : MerchantPlan) : Bool :=
  match subCode, p.paystack_subscription_code with
  | some s, some t => s = t
  | none, none => true
  | _, _ => false

/-- `timedelta(days=30)` in seconds. -/
def thirtyDays : Nat := 30 * 86400

/-- The webhook's amount validation (reference.py lines 8297-8301):
`Decimal(paystack_amount_kobo) / Decimal(100) < invoice.amount`, carried out
in exact decimal arithmetic (embedded in `ℚ`). -/
def amountInsufficient (kobo : Int) (expected : ℚ) : Bool :=
  decide ((kobo : ℚ) / 100 < expected)

/-- Modelled from the spec: `InvoiceService.mark_invoice_paid` is called by
the webhook (reference.py lines 8325, 8335) but `InvoiceService` is not under
`src/`; per spec §3 an invoice "transitions to PAID exactly once", so the
operation sets the referenced invoice's status to `PAID`. -/
def mark_invoice_paid (invoice_id : String) (db : DB) : DB :=
  { db with invoices :=
      db.invoices.map fun inv =>
        if inv.id = invoice_id then { inv with status := "PAID" } else inv }

/-- Modelled from the spec: `InvoiceService.create_fixed_invoice` (called at
reference.py line 8347) is not under `src/`; it appends an invoice row with
the given fields (the fresh uuid4 primary key is passed in by the caller). -/
def create_fixed_invoice (freshId : String) (tenant_id : Nat) (amount : ℚ)
    (currency : String) (status : String) (external_reference : Option String)
    (db : DB) : DB :=
  { db with invoices := db.invoices ++
      [{ id := freshId, tenant_id := tenant_id, amount := amount,
         currency := currency, status := status, category := "SUBSCRIPTION",
         external_reference := external_reference }] }

/-- The renewal pre-update (reference.py lines 8221-8249): on
`invoice.payment_succeeded` with a truthy subscription code, the matching
plans are activated with a computed 30-day cycle; the block neither commits
nor returns, falling through to the combined block. -/
def renewalPreUpdate (subCode : Option String) (now : Nat) (db : DB) : DB :=
  { db with plans :=
      db.plans.map fun p =>
        if matchesSubCode subCode p then
          { p with is_active := true, status := "ACTIVE",
                   billing_cycle_start := some now,
                   cycle_reset_at := some (now + thirtyDays) }
        else p }

/-- Renewal invoice creation (reference.py lines 8345-8365): on
`invoice.payment_succeeded` with a matching plan record, record a PAID
invoice for `Decimal(data.get("amount", 0)) / Decimal(100)`. -/
def renewalInvoiceCreate (event : Option String)
    (plan_record : Option MerchantPlan) (data : EventData) (freshId : String)
    (db : DB) : DB :=
  match plan_record with
  | some pr =>
      if event = some "invoice.payment_succeeded" then
        create_fixed_invoice freshId pr.tenant_id
          (((data.amount.getD 0 : Int) : ℚ) / 100) (data.currency.getD "NGN")
          "PAID" data.reference db
      else db
  | none => db

/-- The "Update plan status" tail of the combined block (reference.py lines
8371-8415): activate the tenant's plan, preferring the provider-supplied
`next_payment_date` for `cycle_reset_at`, else now + 30 days; note that
`paystack_email_token` is overwritten with whatever the event carried. -/
def activatePlan (data : EventData) (now : Nat) (tid : Nat) (db : DB) :
    WebhookResult :=
  let next_cycle : Nat :=
    match data.subscription.next_payment_date with
    | some d => d
    | none => now + thirtyDays
  let plans :=
    db.plans.map fun p =>
      if p.tenant_id = tid then
        { p with is_active := true, status := "ACTIVE",
                 billing_cycle_start := some now,
                 cycle_reset_at := some next_cycle,
                 paystack_email_token := data.subscription.email_token }
      else p
  { db := { db with plans := plans },
    response := ⟨200, "success"⟩, logs := [] }

/-- `tenant_id = plan_record.tenant_id if plan_record else invoice.tenant_id`
followed by the plan update, or the `ignored_no_matching_plan`
acknowledgment when neither is present (reference.py lines 8371-8419). -/
def finishPlanUpdate (data : EventData) (now : Nat)
    (plan_record : Option MerchantPlan) (invoice : Option MerchantInvoice)
    (db : DB) : WebhookResult :=
  match plan_record, invoice with
  | some pr, _ => activatePlan data now pr.tenant_id db
  | none, some inv => activatePlan data now inv.tenant_id db
  | none, none => { db := db, response := ⟨200, "ignored_no_matching_plan"⟩, logs := [] }

/-- The combined `invoice.payment_succeeded` / `charge.success` block
(reference.py lines 8253-8419): look up the plan by subscription code, handle
an initial charge by invoice reference (idempotency skip, exact-decimal
amount check, invoice settlement), create the renewal invoice, then update
the plan. -/
def combinedBlock (event : Option String) (data : EventData) (freshId : String)
    (now : Nat) (db1 : DB) : WebhookResult :=
  let sub_code := pyOr data.subscription.subscription_code data.subscription_code
  let plan_record :=
    if pyTruthy sub_code then db1.plans.find? (matchesSubCode sub_code) else none
  if event = some "charge.success" ∧ pyTruthy data.reference then
    match db1.invoices.find? (fun inv => inv.id = data.reference.getD "") with
    | none => { db := db1, response := ⟨200, "skipped"⟩, logs := [] }
    | some invoice =>
      if invoice.status = "PAID" then
        { db := db1, response := ⟨200, "skipped"⟩, logs := [] }
      else
        match data.amount with
        | none =>
            -- `Decimal(None)` raises: surfaced as an unhandled 500.
            { db := db1, response := ⟨500, "internal_error"⟩, logs := [] }
        | some kobo =>
          if amountInsufficient kobo invoice.amount then
            { db := db1,
              response := ⟨200, "error_amount_mismatch"⟩,
              logs := [{ severity := "error",
                         message := "paystack_webhook_amount_mismatch",
                         invoice_id := some invoice.id,
                         tenant_id := some invoice.tenant_id,
                         expected := some invoice.amount,
                         received := some ((kobo : ℚ) / 100) }] }
          else
            let db2 := mark_invoice_paid invoice.id db1
            let db3 := data.metadata.unpaid_invoice_ids.foldl
              (fun d i => mark_invoice_paid i d) db2
            let db4 := renewalInvoiceCreate event plan_record data freshId db3
            finishPlanUpdate data now plan_record (some invoice) db4
  else
    let db4 := renewalInvoiceCreate event plan_record data freshId db1
    finishPlanUpdate data now plan_record none db4

/-- The event dispatch of the effective webhook handler, after signature
verification and `request.json()` (reference.py lines 8181-8571).  The
trailing `charge.success` block at lines 8423-8567 is unreachable: the
combined block at 8253 returns on every path once `event` is
`charge.success`, so it is not part of the embedding.  No branch exists for
`invoice.payment_failed`, `subscription.not_renewed` or
`subscription.create`; they fall through to `{"status": "ignored"}`. -/
def handle_event (payload : WebhookPayload) (freshId : String) (now : Nat)
    (db : DB) : WebhookResult :=
  let event := payload.event
  let data := payload.data
  if event = some "subscription.disable" then
    let plans :=
      db.plans.map fun p =>
        if matchesSubCode data.subscription_code p then
          { p with status := "CANCELLING" }
        else p
    { db := { db with plans := plans },
      response := ⟨200, "soft_deactivated"⟩, logs := [] }
  else
    let db1 :=
      if event = some "invoice.payment_succeeded" ∧
          pyTruthy data.subscription.subscription_code then
        renewalPreUpdate data.subscription.subscription_code now db
      else db
    if event = some "invoice.payment_succeeded" ∨ event = some "charge.success" then
      combinedBlock event data freshId now db1
    else
      { db := db1, response := ⟨200, "ignored"⟩, logs := [] }

/-- The full webhook endpoint `POST /billing/webhook` (reference.py lines
8131-8571): signature verification over the exact raw body precedes parsing
and dispatch.  `hmacSha512Hex` stands for
`hmac.new(secret.encode(), raw_payload, hashlib.sha512).hexdigest()` and
`parse` for `request.json()`; `hmac.compare_digest` is a constant-time string
equality, embedded as equality. -/
def paystack_billing_webhook (hmacSha512Hex : String → String → String)
    (parse : String → WebhookPayload) (secret : String) (rawBody : String)
    (signature : Option String) (freshId : String) (now : Nat) (db : DB) :
    WebhookResult :=
  if ¬ pyTruthy signature then
    { db := db, response := ⟨401, "Missing signature"⟩, logs := [] }
  else
    let computed := hmacSha512Hex secret rawBody
    if computed = signature.getD "" then
      handle_event (parse rawBody) freshId now db
    else
      { db := db, response := ⟨401, "Invalid signature"⟩,
        logs := [{ severity := "error",
                   message := "Invalid webhook signature detected!" }] }

/-- Failure kinds of the plan-intent service (reference.py: the
`PlanPrerequisiteError`, `PlanNotFoundError`, `PlanIntervalUnsupportedError`
and `PlanCurrencyMismatchError` exception classes). -/
inductive PlanError where
  | prerequisite : PlanError
  | notFound : PlanError
  | intervalUnsupported : PlanError
  | currencyMismatch : PlanError
deriving Repr, DecidableEq

/-- `PlanCatalogueEntry` dataclass returned by `_resolve_plan`. -/
structure PlanCatalogueEntry where
  plan_code : String
  interval : String
  currency : String
  quota_messages : Nat
  price : Nat
deriving Repr, DecidableEq

/-- Python `dict.get` over a literal dict, embedded as an association list. -/
def dictGet {α : Type} (k : String) (d : List (String × α)) : Option α :=
  (d.find? (fun kv => kv.1 = k)).map (fun kv => kv.2)

/-- `PlanIntentService._PLAN_CATALOGUE` (reference.py lines 8943-8962):
plan → interval → currency → (quota_messages, price). -/
def PLAN_CATALOGUE : List (String × List (String × List (String × Nat × Nat))) :=
  [("STARTER", [("monthly", [("NGN", (400, 10000)), ("USD", (400, 39))])]),
   ("GROWTH",  [("monthly", [("NGN", (1500, 25000)), ("USD", (1500, 99))])]),
   ("PRO",     [("monthly", [("NGN", (6000, 60000)), ("USD", (6000, 249))])])]

/-- `PLAN_MAPPING` from `src.core.constants` (reference.py lines 8801-8805). -/
def PLAN_MAPPING : List (String × String) :=
  [("STARTER", "PLN_i6att5rfn5hypyl"),
   ("GROWTH", "PLN_8hp9tz0uyzjxvp7"),
   ("PRO", "PLN_uo1i43zue58y532")]

/-- Python `str.upper()` over the string's characters. -/
def pyUpper (s : String) : String := ⟨s.data.map Char.toUpper⟩

/-- Python `str.lower()` over the string's characters. -/
def pyLower (s : String) : String := ⟨s.data.map Char.toLower⟩

/-- Python `str.strip()`: drop whitespace from both ends. -/
def pyStrip (s : String) : String :=
  ⟨(((s.data.dropWhile Char.isWhitespace).reverse).dropWhile
      Char.isWhitespace).reverse⟩

/-- `PlanIntentService._resolve_plan` with its two normalizers (reference.py
lines 8963-9008): uppercase/strip the plan (empty → not-found),
lowercase/strip the interval (empty or non-monthly → unsupported), then the
three-level catalogue lookup with its three failure kinds. -/
def resolve_plan (plan interval currency : String) :
    Except PlanError PlanCatalogueEntry :=
  let plan_key := pyUpper (pyStrip plan)
  if plan_key = "" then .error .notFound
  else
    let interval_key := pyLower (pyStrip interval)
    if interval_key = "" then .error .intervalUnsupported
    else if interval_key ≠ "monthly" then .error .intervalUnsupported
    else
      let currency_key := pyUpper (pyStrip currency)
      match dictGet plan_key PLAN_CATALOGUE with
      | none => .error .notFound
      | some plan_entry =>
        match dictGet interval_key plan_entry with
        | none => .error .intervalUnsupported
        | some interval_entry =>
          match dictGet currency_key interval_entry with
          | none => .error .currencyMismatch
          | some qp => .ok ⟨plan_key, interval_key, currency_key, qp.1, qp.2⟩

/-- `PlanIntentResult` returned to the caller. -/
structure PlanIntentResult where
  plan_code : String
  interval : String
  currency : String
  quota_messages : Nat
  price : Nat
  billing_cycle_start : Option Nat
deriving Repr, DecidableEq

/-- `PlanIntentService.apply_plan_intent` (reference.py lines 9133-9270):
prerequisite check (record exists and `currency_lock` set), plan resolution,
Paystack plan-id mapping, then the in-place update of the tracked record —
including the safety updates `cycle_reset_at = None` and `is_active = False`
applied on every success path.  The audit-log write commits in the same
transaction and carries no billing state, so it is not part of the `DB`. -/
def apply_plan_intent (tenant_id : Nat) (plan interval : String) (now : Nat)
    (db : DB) : Except PlanError (DB × PlanIntentResult) :=
  match db.plans.find? (fun p => p.tenant_id = tenant_id) with
  | none => .error .prerequisite
  | some plan_record =>
    match plan_record.currency_lock with
    | none => .error .prerequisite
    | some lock =>
      match resolve_plan plan interval lock with
      | .error e => .error e
      | .ok sel =>
        match dictGet plan PLAN_MAPPING with
        | none => .error .notFound
        | some paystack_id =>
          let updated := { plan_record with
            plan_code := sel.plan_code,
            billing_interval := some sel.interval,
            quota_messages := some sel.quota_messages,
            price := some sel.price,
            billing_cycle_start := some now,
            paystack_plan_id := some paystack_id,
            cycle_reset_at := none,
            is_active := false }
          let plans := db.plans.map fun p =>
            if p.tenant_id = tenant_id then updated else p
          .ok ({ db with plans := plans },
               ⟨sel.plan_code, sel.interval, sel.currency, sel.quota_messages,
                sel.price, some now⟩)

/-- One outbound call to the Paystack API, as recorded by the embedding. -/
structure ProviderCall where
  kind : String
  subscription_code : Option String := none
  plan_code : Option String := none
  email : Option String := none
  email_token : Option String := none
  reference : Option String := none
deriving Repr, DecidableEq

/-- Result of an interactive billing endpoint: resulting store, the outbound
provider calls made, and the HTTP response. -/
structure EndpointResult where
  db : DB
  provider_calls : List ProviderCall
  response : HttpResponse
deriving Repr, DecidableEq

/-- Modelled from the spec: `InvoiceService.create_pending_invoice` (called
at reference.py line 8687) is not under `src/`; per spec §4.4 it creates a
PENDING invoice for the plan's price. -/
def create_pending_invoice (freshId : String) (tenant_id : Nat) (amount : ℚ)
    (currency : String) (db : DB) : DB :=
  { db with invoices := db.invoices ++
      [{ id := freshId, tenant_id := tenant_id, amount := amount,
         currency := currency, status := "PENDING",
         category := "SUBSCRIPTION" }] }

/-- `POST /billing/subscription/checkout` (reference.py lines 8641-8740):
currency gate first (409 unless the profile's `currency_lock` is `"NGN"`),
then either a provider plan change on the existing subscription or a new
PENDING invoice followed by a provider checkout-session request.
`providerOk` stands for the outcome of the outbound Paystack call (a raised
`PaystackServiceError` propagates as an unhandled 500); `providerUrl` is the
authorization URL the provider would return. -/
def subscription_checkout (plan_id success_url : String) (tenant_id : Nat)
    (freshId : String) (providerUrl : String) (providerOk : Bool) (db : DB) :
    EndpointResult :=
  let merchant_plan := db.plans.find? (fun p => p.tenant_id = tenant_id)
  let profile := db.profiles.find? (fun pr => pr.tenant_id = tenant_id)
  match profile with
  | none =>
      { db := db, provider_calls := [],
        response := ⟨409, "NGN currency required for Paystack checkout."⟩ }
  | some prof =>
    if prof.currency_lock ≠ some "NGN" then
      { db := db, provider_calls := [],
        response := ⟨409, "NGN currency required for Paystack checkout."⟩ }
    else
      match merchant_plan with
      | none =>
          -- `merchant_plan.paystack_subscription_code` on `None`: 500.
          { db := db, provider_calls := [], response := ⟨500, "internal_error"⟩ }
      | some mp =>
        if pyTruthy mp.paystack_subscription_code then
          let call : ProviderCall :=
            { kind := "update_subscription",
              subscription_code := mp.paystack_subscription_code,
              plan_code := dictGet plan_id PLAN_MAPPING }
          if providerOk then
            { db := db, provider_calls := [call], response := ⟨200, success_url⟩ }
          else
            { db := db, provider_calls := [call],
              response := ⟨500, "internal_error"⟩ }
        else
          let db1 := create_pending_invoice freshId tenant_id
            ((mp.price.getD 0 : Nat) : ℚ) "NGN" db
          let call : ProviderCall :=
            { kind := "initialize_subscription",
              plan_code := mp.paystack_plan_id,
              email := some prof.email,
              reference := some freshId }
          if providerOk then
            { db := db1, provider_calls := [call],
              response := ⟨200, providerUrl⟩ }
          else
            { db := db1, provider_calls := [call],
              response := ⟨500, "internal_error"⟩ }

/-- `POST /billing/subscription/cancel` (reference.py lines 8581-8639): 400
when no plan / subscription code or no email token is stored; otherwise one
outbound Paystack cancellation call, answered with a human-readable message,
or a 500 when the provider call fails.  No local write anywhere. -/
def cancel_subscription (tenant_id : Nat) (providerOk : Bool) (db : DB) :
    EndpointResult :=
  match db.plans.find? (fun p => p.tenant_id = tenant_id) with
  | none =>
      { db := db, provider_calls := [],
        response := ⟨400, "No active subscription found to cancel."⟩ }
  | some mp =>
    if ¬ pyTruthy mp.paystack_subscription_code then
      { db := db, provider_calls := [],
        response := ⟨400, "No active subscription found to cancel."⟩ }
    else if ¬ pyTruthy mp.paystack_email_token then
      { db := db, provider_calls := [],
        response := ⟨400, "Subscription token missing. Please contact support."⟩ }
    else
      let call : ProviderCall :=
        { kind := "cancel_subscription",
          subscription_code := mp.paystack_subscription_code,
          email_token := mp.paystack_email_token }
      if providerOk then
        { db := db, provider_calls := [call],
          response := ⟨200, "Cancellation request successful. Access remains active until the end of the period."⟩ }
      else
        { db := db, provider_calls := [call],
          response := ⟨500, "Failed to process cancellation with the payment provider."⟩ }

/-- Modelled from the spec: the Cleanup Sweeper rule (spec §4.5) has no
implementation under `src/`; its selection predicate is
`status == CANCELLING AND is_active == true AND cycle_reset_at <= now`. -/
def cleanupPred (now : Nat) (p : MerchantPlan) : Bool :=
  p.status = "CANCELLING" && p.is_active &&
    (match p.cycle_reset_at with
     | some t => decide (t ≤ now)
     | none => false)

/-- Modelled from the spec: the per-row effect of the Cleanup Sweeper —
selected rows get `is_active = false, status = EXPIRED`, all others are left
untouched. -/
def sweepOne (now : Nat) (p : MerchantPlan) : MerchantPlan :=
  if cleanupPred now p then { p with is_active := false, status := "EXPIRED" }
  else p

/-- Modelled from the spec: the Cleanup Sweeper's single set-based update
over the whole `merchant_plans` table (spec §4.5). -/
def cleanup_sweep (now : Nat) (db : DB) : DB :=
  { db with plans := db.plans.map (sweepOne now) }

/-! Concrete fixtures used by witness and counterexample theorems. -/

/-- A pending subscription invoice of 100 NGN (10000 kobo). -/
def exInvoice : MerchantInvoice :=
  { id := "inv1", tenant_id := 1, amount := 100, status := "PENDING" }

/-- A store with one inactive pending tenant and `exInvoice` outstanding. -/
def exDB : DB :=
  { plans := [{ tenant_id := 1, plan_code := "GROWTH", status := "PENDING",
                is_active := false, currency_lock := some "NGN" }],
    invoices := [exInvoice] }

/-- A `charge.success` event paying 9999 kobo against `exInvoice` (which
expects 10000 kobo). -/
def exMismatchPayload : WebhookPayload :=
  { event := some "charge.success",
    data := { reference := some "inv1", amount := some 9999 } }

/-- A `charge.success` event paying `exInvoice` in full. -/
def exChargePayload : WebhookPayload :=
  { event := some "charge.success",
    data := { reference := some "inv1", amount := some 10000,
              subscription := { subscription_code := some "SUB1",
                                email_token := some "tok" } } }

/-- A `subscription.disable` event for subscription code `SUB9`. -/
def exDisablePayload : WebhookPayload :=
  { event := some "subscription.disable",
    data := { subscription_code := some "SUB9" } }

/-- An active tenant's plan row holding subscription code `SUB9`. -/
def exDisablePlan : MerchantPlan :=
  { tenant_id := 2, plan_code := "PRO", status := "ACTIVE",
    is_active := true, cycle_reset_at := some 77,
    paystack_subscription_code := some "SUB9" }

/-- A store with one active tenant holding subscription code `SUB9`. -/
def exDisableDB : DB :=
  { plans := [exDisablePlan], invoices := [] }

/-- An `invoice.payment_failed` event for subscription code `SUB9`. -/
def exPaymentFailedPayload : WebhookPayload :=
  { event := some "invoice.payment_failed",
    data := { subscription_code := some "SUB9",
              subscription := { subscription_code := some "SUB9" } } }

/-- A store whose tenant 3 has a non-NGN settlement currency. -/
def exUsdDB : DB :=
  { plans := [{ tenant_id := 3, plan_code := "STARTER", status := "PENDING",
                is_active := false }],
    invoices := [],
    profiles := [{ tenant_id := 3, email := "m@shop.example",
                   currency_lock := some "USD" }] }

/-- A store whose tenant 1 previously had entitlement fields set, to show
the plan-intent safety reset overrides prior values. -/
def exPlanIntentDB : DB :=
  { plans := [{ tenant_id := 1, plan_code := "STARTER", status := "PENDING",
                is_active := true, currency_lock := some "NGN",
                cycle_reset_at := some 99 }],
    invoices := [] }

/-- The record `apply_plan_intent 1 "GROWTH" "monthly" 7 exPlanIntentDB`
produces for tenant 1. -/
def exPlanIntentUpdated : MerchantPlan :=
  { tenant_id := 1, plan_code := "GROWTH", status := "PENDING",
    is_active := false, currency_lock := some "NGN",
    billing_interval := some "monthly", billing_cycle_start := some 7,
    quota_messages := some 1500, price := some 25000, cycle_reset_at := none,
    paystack_plan_id := some "PLN_8hp9tz0uyzjxvp7" }

/-- C8: the webhook's amount validation compares the event's minor-unit
integer amount against the invoice's expected amount using exact
integer/decimal arithmetic in the same minor unit, never floating-point
division: the check `Decimal(kobo)/Decimal(100) < invoice.amount` (embedded
exactly in `ℚ`) decides precisely the exact minor-unit comparison
`kobo < 100 * expected`, with no rounding anywhere. -/
theorem amount_check_is_exact_minor_unit_comparison (kobo : Int) (expected : ℚ) :
    amountInsufficient kobo expected = true ↔ (kobo : ℚ) < 100 * expected := by
  unfold amountInsufficient
  rw [decide_eq_true_iff]
  rw [div_lt_iff₀ (by norm_num : (0:ℚ) < 100)]
  rw [mul_comm]

/-- C10: the subscription-cancellation endpoint never mutates local billing
state: whatever the stored record looks like and whether the outbound
provider call succeeds or fails, the database is returned unchanged. -/
theorem cancel_subscription_preserves_billing_state
    (tenant_id : Nat) (providerOk : Bool) (db : DB) :
    (cancel_subscription tenant_id providerOk db).db = db := by
  unfold cancel_subscription
  split
  · rfl
  · split
    · rfl
    · split
      · rfl
      · split <;> rfl

/-- C7: the cleanup rule selects exactly the records with
`status == CANCELLING ∧ is_active ∧ cycle_reset_at ≤ now` and sets
`is_active = false, status = EXPIRED` on them, touching nothing else; and it
is idempotent: re-running it after success affects zero additional rows. -/
theorem cleanup_sweep_rule_and_idempotency (now : Nat) (db : DB) :
    ((cleanup_sweep now db).plans = db.plans.map (sweepOne now)) ∧
    (∀ p : MerchantPlan, cleanupPred now p = true →
        sweepOne now p = { p with is_active := false, status := "EXPIRED" }) ∧
    (∀ p : MerchantPlan, cleanupPred now p = false → sweepOne now p = p) ∧
    cleanup_sweep now (cleanup_sweep now db) = cleanup_sweep now db := by
  refine ⟨rfl, fun p hp => by simp [sweepOne, hp],
          fun p hp => by simp [sweepOne, hp], ?_⟩
  unfold cleanup_sweep
  simp only [List.map_map]
  have hcomp : sweepOne now ∘ sweepOne now = sweepOne now := by
    funext p
    simp only [Function.comp_apply]
    by_cases h : cleanupPred now p
    · have h2 : cleanupPred now { p with is_active := false, status := "EXPIRED" } = false := by
        simp [cleanupPred]
      simp [sweepOne, h, h2]
    · simp [sweepOne, h]
  rw [hcomp]

theorem cleanup_sweep_rule_witness :
    sweepOne 1000 { tenant_id := 1, plan_code := "PRO", status := "CANCELLING",
                    is_active := true, cycle_reset_at := some 500 } =
      { tenant_id := 1, plan_code := "PRO", status := "EXPIRED",
        is_active := false, cycle_reset_at := some 500 } ∧
    cleanup_sweep 1000 (cleanup_sweep 1000
        { plans := [{ tenant_id := 1, plan_code := "PRO",
                      status := "CANCELLING", is_active := true,
                      cycle_reset_at := some 500 }], invoices := [] }) =
      cleanup_sweep 1000
        { plans := [{ tenant_id := 1, plan_code := "PRO",
                      status := "CANCELLING", is_active := true,
                      cycle_reset_at := some 500 }], invoices := [] } := by
  constructor
  · exact (cleanup_sweep_rule_and_idempotency 1000
      { plans := [], invoices := [] }).2.1
      { tenant_id := 1, plan_code := "PRO", status := "CANCELLING",
        is_active := true, cycle_reset_at := some 500 } (by decide)
  · exact (cleanup_sweep_rule_and_idempotency 1000 _).2.2.2

/-- C4: every successful `apply_plan_intent` leaves the tenant's billing
record with `cycle_reset_at = none` and `is_active = false`, regardless of
the record's prior values: selecting a plan never grants entitlement. -/
theorem apply_plan_intent_never_grants_entitlement
    (tenant_id : Nat) (plan interval : String) (now : Nat) (db db' : DB)
    (res : PlanIntentResult)
    (h : apply_plan_intent tenant_id plan interval now db = .ok (db', res)) :
    ∀ p ∈ db'.plans, p.tenant_id = tenant_id →
      p.cycle_reset_at = none ∧ p.is_active = false := by
  unfold apply_plan_intent at h
  split at h
  · cases h
  · split at h
    · cases h
    · split at h
      · cases h
      · split at h
        · cases h
        · simp only [Except.ok.injEq, Prod.mk.injEq] at h
          obtain ⟨hdb, -⟩ := h
          subst hdb
          intro p hp hpt
          simp only [List.mem_map] at hp
          obtain ⟨q, hq, rfl⟩ := hp
          by_cases hqt : q.tenant_id = tenant_id
          · simp [hqt]
          · rw [if_neg hqt] at hpt ⊢
            exact absurd hpt hqt

theorem apply_plan_intent_never_grants_entitlement_witness :
    exPlanIntentUpdated.cycle_reset_at = none ∧
    exPlanIntentUpdated.is_active = false :=
  apply_plan_intent_never_grants_entitlement 1 "GROWTH" "monthly" 7
    exPlanIntentDB { plans := [exPlanIntentUpdated], invoices := [] }
    { plan_code := "GROWTH", interval := "monthly", currency := "NGN",
      quota_messages := 1500, price := 25000, billing_cycle_start := some 7 }
    (by rfl) exPlanIntentUpdated (by decide) (by rfl)

/-- Marking one invoice paid commutes with the id-keyed lookup: the map only
rewrites the `status` field, never the `id` the lookup filters on. -/
theorem find?_map_markFun (r j : String) (l : List MerchantInvoice) :
    (l.map (fun inv => if inv.id = j then { inv with status := "PAID" } else inv)).find?
        (fun inv => inv.id = r)
      = (l.find? (fun inv => inv.id = r)).map
          (fun inv => if inv.id = j then { inv with status := "PAID" } else inv) := by
  induction l with
  | nil => rfl
  | cons a tl ih =>
    have hid : (if a.id = j then { a with status := "PAID" } else a).id = a.id := by
      by_cases h : a.id = j <;> simp [h]
    simp only [List.map_cons, List.find?_cons, hid]
    by_cases h2 : a.id = r
    · simp [h2]
    · simp [h2, ih]

/-- `mark_invoice_paid` seen through the id-keyed lookup. -/
theorem find?_after_mark (j r : String) (db : DB) :
    (mark_invoice_paid j db).invoices.find? (fun inv => inv.id = r)
      = (db.invoices.find? (fun inv => inv.id = r)).map
          (fun inv => if inv.id = j then { inv with status := "PAID" } else inv) := by
  unfold mark_invoice_paid
  exact find?_map_markFun r j db.invoices

/-- Settling the secondary `unpaid_invoice_ids` never un-pays the invoice
found by the primary reference. -/
theorem foldl_mark_keeps_paid (ids : List String) (db : DB) (r : String)
    (h : ∃ inv, db.invoices.find? (fun inv => inv.id = r) = some inv ∧
           inv.status = "PAID") :
    ∃ inv, (ids.foldl (fun d i => mark_invoice_paid i d) db).invoices.find?
        (fun inv => inv.id = r) = some inv ∧ inv.status = "PAID" := by
  induction ids generalizing db with
  | nil => exact h
  | cons j tl ih =>
    apply ih
    obtain ⟨inv, hf, hs⟩ := h
    refine ⟨if inv.id = j then { inv with status := "PAID" } else inv, ?_, ?_⟩
    · rw [find?_after_mark, hf]
      rfl
    · by_cases hj : inv.id = j <;> simp [hj, hs]

/-- On a `charge.success` event the renewal-invoice creation step is a
no-op (its guard requires `invoice.payment_succeeded`). -/
theorem renewalInvoiceCreate_charge (pr : Option MerchantPlan)
    (data : EventData) (fid : String) (db : DB) :
    renewalInvoiceCreate (some "charge.success") pr data fid db = db := by
  unfold renewalInvoiceCreate
  cases pr with
  | none => rfl
  | some p => simp

/-- The final plan update of the combined block never touches the invoice
table. -/
theorem finishPlanUpdate_invoices (data : EventData) (now : Nat)
    (pr : Option MerchantPlan) (inv : Option MerchantInvoice) (db : DB) :
    (finishPlanUpdate data now pr inv db).db.invoices = db.invoices := by
  unfold finishPlanUpdate activatePlan
  cases pr <;> cases inv <;> rfl

/-- C1: a signature-verified `charge.success` whose reference resolves to an
existing not-yet-`PAID` invoice and whose amount is below the expected
amount (the code's check `kobo/100 < invoice.amount` in exact decimals) is
answered with HTTP 200 `error_amount_mismatch`, leaves the entire store
unchanged (so the invoice stays `PENDING` and the tenant's `is_active` is
untouched), and emits exactly one error-severity diagnostic carrying the
tenant, the invoice id, and expected vs received amounts. -/
theorem charge_amount_mismatch_acked_without_writes
    (payload : WebhookPayload) (freshId : String) (now : Nat) (db : DB)
    (r : String) (invoice : MerchantInvoice) (kobo : Int)
    (hev : payload.event = some "charge.success")
    (href : payload.data.reference = some r) (hr : r ≠ "")
    (hfind : db.invoices.find? (fun inv => inv.id = r) = some invoice)
    (hst : invoice.status = "PENDING")
    (hamt : payload.data.amount = some kobo)
    (hlt : amountInsufficient kobo invoice.amount = true) :
    (handle_event payload freshId now db).db = db ∧
    (handle_event payload freshId now db).response = ⟨200, "error_amount_mismatch"⟩ ∧
    (handle_event payload freshId now db).logs =
      [{ severity := "error", message := "paystack_webhook_amount_mismatch",
         invoice_id := some invoice.id, tenant_id := some invoice.tenant_id,
         expected := some invoice.amount, received := some ((kobo : ℚ) / 100) }] := by
  have hpt : pyTruthy payload.data.reference = true := by
    rw [href]; simp [pyTruthy, hr]
  have hgd : payload.data.reference.getD "" = r := by rw [href]; rfl
  unfold handle_event
  rw [hev]
  rw [if_neg (by simp)]
  rw [if_pos (Or.inr rfl)]
  rw [if_neg (by simp)]
  unfold combinedBlock
  rw [if_pos ⟨rfl, hpt⟩]
  rw [hgd, hfind]
  dsimp only
  rw [if_neg (by rw [hst]; simp)]
  rw [hamt]
  dsimp only
  rw [if_pos hlt]
  exact ⟨rfl, rfl, rfl⟩

theorem charge_amount_mismatch_acked_without_writes_witness :
    (handle_event exMismatchPayload "fresh" 0 exDB).db = exDB ∧
    (handle_event exMismatchPayload "fresh" 0 exDB).response =
      ⟨200, "error_amount_mismatch"⟩ ∧
    (handle_event exMismatchPayload "fresh" 0 exDB).logs =
      [{ severity := "error", message := "paystack_webhook_amount_mismatch",
         invoice_id := some exInvoice.id, tenant_id := some exInvoice.tenant_id,
         expected := some exInvoice.amount,
         received := some (((9999 : Int) : ℚ) / 100) }] :=
  charge_amount_mismatch_acked_without_writes exMismatchPayload "fresh" 0 exDB
    "inv1" exInvoice 9999 (by rfl) (by rfl) (by decide) (by rfl) (by rfl)
    (by rfl) (by norm_num [amountInsufficient, exInvoice])

/-- C3: delivering the same `charge.success` event twice marks the invoice
`PAID` exactly once: after a first delivery that settles the invoice, the
invoice looked up by the event's reference is `PAID`, and the second
delivery hits the idempotency boundary — it returns the `skipped`
acknowledgment and leaves the whole store (hence the invoice status and the
tenant's `cycle_reset_at` and `quota_messages`) exactly as the first
delivery left it. -/
theorem charge_success_redelivery_is_noop
    (payload : WebhookPayload) (db : DB) (freshId₁ freshId₂ : String)
    (now₁ now₂ : Nat) (r : String) (invoice : MerchantInvoice) (kobo : Int)
    (hev : payload.event = some "charge.success")
    (href : payload.data.reference = some r) (hr : r ≠ "")
    (hfind : db.invoices.find? (fun inv => inv.id = r) = some invoice)
    (hst : invoice.status ≠ "PAID")
    (hamt : payload.data.amount = some kobo)
    (hge : amountInsufficient kobo invoice.amount = false) :
    (∃ inv', (handle_event payload freshId₁ now₁ db).db.invoices.find?
        (fun inv => inv.id = r) = some inv' ∧ inv'.status = "PAID") ∧
    handle_event payload freshId₂ now₂ ((handle_event payload freshId₁ now₁ db).db) =
      { db := (handle_event payload freshId₁ now₁ db).db,
        response := ⟨200, "skipped"⟩, logs := [] } := by
  have hpt : pyTruthy payload.data.reference = true := by
    rw [href]; simp [pyTruthy, hr]
  have hgd : payload.data.reference.getD "" = r := by rw [href]; rfl
  have hidr : invoice.id = r := by simpa using List.find?_some hfind
  have hD : ∃ inv', (handle_event payload freshId₁ now₁ db).db.invoices.find?
      (fun inv => inv.id = r) = some inv' ∧ inv'.status = "PAID" := by
    unfold handle_event
    rw [hev]
    rw [if_neg (by simp)]
    rw [if_pos (Or.inr rfl)]
    rw [if_neg (by simp)]
    unfold combinedBlock
    rw [if_pos ⟨rfl, hpt⟩]
    rw [hgd, hfind]
    dsimp only
    rw [if_neg hst]
    rw [hamt]
    dsimp only
    rw [if_neg (by simp [hge])]
    rw [finishPlanUpdate_invoices, renewalInvoiceCreate_charge]
    apply foldl_mark_keeps_paid
    refine ⟨{ invoice with status := "PAID" }, ?_, rfl⟩
    rw [hidr, find?_after_mark, hfind]
    simp [hidr]
  refine ⟨hD, ?_⟩
  obtain ⟨inv', hf', hs'⟩ := hD
  generalize hG : (handle_event payload freshId₁ now₁ db).db = D at hf' ⊢
  unfold handle_event
  rw [hev]
  rw [if_neg (by simp)]
  rw [if_pos (Or.inr rfl)]
  rw [if_neg (by simp)]
  unfold combinedBlock
  rw [if_pos ⟨rfl, hpt⟩]
  rw [hgd, hf']
  dsimp only
  rw [if_pos hs']

theorem charge_success_redelivery_is_noop_witness :
    (∃ inv', (handle_event exChargePayload "f1" 0 exDB).db.invoices.find?
        (fun inv => inv.id = "inv1") = some inv' ∧ inv'.status = "PAID") ∧
    handle_event exChargePayload "f2" 5 ((handle_event exChargePayload "f1" 0 exDB).db) =
      { db := (handle_event exChargePayload "f1" 0 exDB).db,
        response := ⟨200, "skipped"⟩, logs := [] } :=
  charge_success_redelivery_is_noop exChargePayload exDB "f1" "f2" 0 5
    "inv1" exInvoice 10000 (by rfl) (by rfl) (by decide) (by rfl) (by decide)
    (by rfl) (by norm_num [amountInsufficient, exInvoice])

/-- C5: a signature-verified `subscription.disable` event sets
`status = "CANCELLING"` on exactly the plan rows matching the event's
subscription code and changes no other field of any row — in particular
`is_active` is left unchanged (soft cancel) — while the invoice and profile
tables are untouched and the handler acknowledges with
`soft_deactivated`. -/
theorem subscription_disable_sets_only_status
    (payload : WebhookPayload) (freshId : String) (now : Nat) (db : DB)
    (hev : payload.event = some "subscription.disable")
    (i : Nat) (p : MerchantPlan) (hp : db.plans[i]? = some p) :
    (handle_event payload freshId now db).response = ⟨200, "soft_deactivated"⟩ ∧
    (handle_event payload freshId now db).db.invoices = db.invoices ∧
    (handle_event payload freshId now db).db.profiles = db.profiles ∧
    ∃ q, (handle_event payload freshId now db).db.plans[i]? = some q ∧
      q.status = (if matchesSubCode payload.data.subscription_code p then
                    "CANCELLING" else p.status) ∧
      q.tenant_id = p.tenant_id ∧ q.plan_code = p.plan_code ∧
      q.is_active = p.is_active ∧ q.currency_lock = p.currency_lock ∧
      q.billing_interval = p.billing_interval ∧
      q.billing_cycle_start = p.billing_cycle_start ∧
      q.quota_messages = p.quota_messages ∧ q.price = p.price ∧
      q.cycle_reset_at = p.cycle_reset_at ∧
      q.overage_count = p.overage_count ∧
      q.paystack_plan_id = p.paystack_plan_id ∧
      q.paystack_subscription_code = p.paystack_subscription_code ∧
      q.paystack_email_token = p.paystack_email_token := by
  unfold handle_event
  rw [hev, if_pos rfl]
  refine ⟨rfl, rfl, rfl, ?_⟩
  refine ⟨if matchesSubCode payload.data.subscription_code p then
            { p with status := "CANCELLING" } else p, ?_, ?_⟩
  · dsimp only
    rw [List.getElem?_map, hp]
    rfl
  · by_cases h : matchesSubCode payload.data.subscription_code p
    · simp [h]
    · simp [h]

theorem subscription_disable_sets_only_status_witness :
    (handle_event exDisablePayload "f" 0 exDisableDB).response =
      ⟨200, "soft_deactivated"⟩ ∧
    (handle_event exDisablePayload "f" 0 exDisableDB).db.invoices =
      exDisableDB.invoices ∧
    (handle_event exDisablePayload "f" 0 exDisableDB).db.profiles =
      exDisableDB.profiles ∧
    ∃ q, (handle_event exDisablePayload "f" 0 exDisableDB).db.plans[0]? = some q ∧
      q.status = (if matchesSubCode exDisablePayload.data.subscription_code
                      exDisablePlan then "CANCELLING" else exDisablePlan.status) ∧
      q.tenant_id = exDisablePlan.tenant_id ∧
      q.plan_code = exDisablePlan.plan_code ∧
      q.is_active = exDisablePlan.is_active ∧
      q.currency_lock = exDisablePlan.currency_lock ∧
      q.billing_interval = exDisablePlan.billing_interval ∧
      q.billing_cycle_start = exDisablePlan.billing_cycle_start ∧
      q.quota_messages = exDisablePlan.quota_messages ∧
      q.price = exDisablePlan.price ∧
      q.cycle_reset_at = exDisablePlan.cycle_reset_at ∧
      q.overage_count = exDisablePlan.overage_count ∧
      q.paystack_plan_id = exDisablePlan.paystack_plan_id ∧
      q.paystack_subscription_code = exDisablePlan.paystack_subscription_code ∧
      q.paystack_email_token = exDisablePlan.paystack_email_token :=
  subscription_disable_sets_only_status exDisablePayload "f" 0 exDisableDB
    (by rfl) 0 exDisablePlan (by rfl)

/-- C2: a webhook request whose `x-paystack-signature` header is missing (or
empty, which Python treats the same) or differs from the HMAC-SHA512 hex
digest of the exact raw body is answered 401 with zero database writes, and
its outcome does not depend on the JSON parser, the fresh id or the clock —
the rejection happens before parsing or dispatching.  The constant-time
`hmac.compare_digest` is embedded as string equality; the timing aspect
itself is outside a functional model. -/
theorem webhook_signature_failure_401_no_writes
    (hmacHex : String → String → String)
    (parse parse2 : String → WebhookPayload)
    (secret rawBody : String) (signature : Option String)
    (freshId freshId2 : String) (now now2 : Nat) (db : DB)
    (h : pyTruthy signature = false ∨ hmacHex secret rawBody ≠ signature.getD "") :
    (paystack_billing_webhook hmacHex parse secret rawBody signature
        freshId now db).db = db ∧
    (paystack_billing_webhook hmacHex parse secret rawBody signature
        freshId now db).response.status_code = 401 ∧
    paystack_billing_webhook hmacHex parse secret rawBody signature
        freshId now db =
      paystack_billing_webhook hmacHex parse2 secret rawBody signature
        freshId2 now2 db := by
  unfold paystack_billing_webhook
  by_cases ht : pyTruthy signature = true
  · have hne : hmacHex secret rawBody ≠ signature.getD "" := by
      rcases h with h | h
      · rw [h] at ht; cases ht
      · exact h
    rw [if_neg (by simp [ht]), if_neg hne, if_neg (by simp [ht]), if_neg hne]
    exact ⟨rfl, rfl, rfl⟩
  · rw [if_pos (by simpa using ht), if_pos (by simpa using ht)]
    exact ⟨rfl, rfl, rfl⟩

theorem webhook_signature_failure_401_no_writes_witness :
    (paystack_billing_webhook (fun s b => s ++ b) (fun _ => {}) "sec" "body"
        (some "WRONG") "f" 0 exDB).db = exDB ∧
    (paystack_billing_webhook (fun s b => s ++ b) (fun _ => {}) "sec" "body"
        (some "WRONG") "f" 0 exDB).response.status_code = 401 ∧
    paystack_billing_webhook (fun s b => s ++ b) (fun _ => {}) "sec" "body"
        (some "WRONG") "f" 0 exDB =
      paystack_billing_webhook (fun s b => s ++ b)
        (fun _ => { event := some "charge.success" }) "sec" "body"
        (some "WRONG") "f2" 9 exDB :=
  webhook_signature_failure_401_no_writes (fun s b => s ++ b) (fun _ => {})
    (fun _ => { event := some "charge.success" }) "sec" "body" (some "WRONG")
    "f" "f2" 0 9 exDB (Or.inr (by decide))

/-- C9: `subscription_checkout` for a tenant whose profile is missing or
whose `currency_lock` is not `"NGN"` returns the 409 conflict, creates no
invoice (the store is unchanged) and makes no provider call. -/
theorem checkout_currency_gate_conflict
    (plan_id success_url : String) (tenant_id : Nat)
    (freshId providerUrl : String) (providerOk : Bool) (db : DB)
    (h : (db.profiles.find? (fun pr => pr.tenant_id = tenant_id)).all
          (fun prof => prof.currency_lock ≠ some "NGN") = true) :
    subscription_checkout plan_id success_url tenant_id freshId providerUrl
        providerOk db
      = ⟨db, [], ⟨409, "NGN currency required for Paystack checkout."⟩⟩ := by
  unfold subscription_checkout
  cases hf : db.profiles.find? (fun pr => pr.tenant_id = tenant_id) with
  | none => rfl
  | some prof =>
    rw [hf] at h
    simp only [Option.all] at h
    dsimp only
    rw [if_pos (of_decide_eq_true h)]

theorem checkout_currency_gate_conflict_witness :
    subscription_checkout "growth" "https://shop.example/ok" 3 "fid"
        "https://pay.example" true exUsdDB
      = ⟨exUsdDB, [], ⟨409, "NGN currency required for Paystack checkout."⟩⟩ :=
  checkout_currency_gate_conflict "growth" "https://shop.example/ok" 3 "fid"
    "https://pay.example" true exUsdDB (by decide)

/-- C6 (counterexample): the handler has no branch for
`invoice.payment_failed` — delivered against a store whose active tenant
matches the event's subscription code, the event falls through to the
generic `{"status": "ignored"}` acknowledgment and the record keeps
`status = "ACTIVE"` and `is_active = true`; it is not transitioned to
`PAST_DUE` with `is_active = false` as the claim states (the string
`PAST_DUE` does not occur in the code at all). -/
theorem payment_failed_not_past_due_counterexample :
    (handle_event exPaymentFailedPayload "f" 0 exDisableDB).db = exDisableDB ∧
    (handle_event exPaymentFailedPayload "f" 0 exDisableDB).response =
      ⟨200, "ignored"⟩ ∧
    (handle_event exPaymentFailedPayload "f" 0 exDisableDB).db.plans.map
        (fun p => p.status) = ["ACTIVE"] ∧
    (handle_event exPaymentFailedPayload "f" 0 exDisableDB).db.plans.map
        (fun p => p.status) ≠ ["PAST_DUE"] ∧
    (handle_event exPaymentFailedPayload "f" 0 exDisableDB).db.plans.map
        (fun p => p.is_active) = [true] := by decide

/-- C6 (amended): processing a signature-verified `invoice.payment_failed`
event is a no-op — no dispatch branch exists for it, so the handler changes
no billing state and returns the generic `ignored` acknowledgment with
HTTP 200. -/
theorem payment_failed_event_is_noop
    (payload : WebhookPayload) (freshId : String) (now : Nat) (db : DB)
    (hev : payload.event = some "invoice.payment_failed") :
    (handle_event payload freshId now db).db = db ∧
    (handle_event payload freshId now db).response = ⟨200, "ignored"⟩ := by
  unfold handle_event
  rw [hev]
  rw [if_neg (by simp)]
  rw [if_neg (by simp)]
  rw [if_neg (by simp)]
  exact ⟨rfl, rfl⟩

theorem payment_failed_event_is_noop_witness :
    (handle_event exPaymentFailedPayload "g" 3 exUsdDB).db = exUsdDB ∧
    (handle_event exPaymentFailedPayload "g" 3 exUsdDB).response =
      ⟨200, "ignored"⟩ :=
  payment_failed_event_is_noop exPaymentFailedPayload "g" 3 exUsdDB (by rfl)
